import Mathlib

/-!
Verification of the collision resolver in `src/hw1/src/sphere.cpp`.

The C++ code works on `Eigen::Vector4f` (IEEE single-precision) buffers.
We embed the arithmetic over the rationals.  The only non-rational
operation used by the source is `sqrtf` (through Eigen's `norm()` and
`normalized()`); we model it as an explicit oracle `sq : Rat -> Rat`
carried in the configuration.  Theorems that depend on actual
square-root behaviour take pointwise exactness hypotheses about `sq` at
the inputs where the code evaluates it, and witnesses instantiate `sq`
with lookup tables that are exact at those points.  Eigen's
`normalized()` guards the zero vector (it returns the vector unchanged
when the squared norm is not positive); the model reproduces that guard.
-/

/-- Four-component vector, modelling `Eigen::Vector4f`. -/
@[ext]
structure Vec4 where
  x : ℚ
  y : ℚ
  z : ℚ
  w : ℚ
deriving DecidableEq, Repr

namespace Vec4

def add (a b : Vec4) : Vec4 := ⟨a.x + b.x, a.y + b.y, a.z + b.z, a.w + b.w⟩

def sub (a b : Vec4) : Vec4 := ⟨a.x - b.x, a.y - b.y, a.z - b.z, a.w - b.w⟩

def neg (a : Vec4) : Vec4 := ⟨-a.x, -a.y, -a.z, -a.w⟩

def smul (c : ℚ) (a : Vec4) : Vec4 := ⟨c * a.x, c * a.y, c * a.z, c * a.w⟩

/-- Componentwise division by a scalar, as Eigen's `vector / scalar`. -/
def divS (a : Vec4) (c : ℚ) : Vec4 := ⟨a.x / c, a.y / c, a.z / c, a.w / c⟩

/-- Four-component dot product, as `Eigen::Vector4f::dot`. -/
def dot (a b : Vec4) : ℚ := a.x * b.x + a.y * b.y + a.z * b.z + a.w * b.w

/-- Cross product of the xyz parts with zero last component, as Eigen's `cross3`. -/
def cross3 (a b : Vec4) : Vec4 :=
  ⟨a.y * b.z - a.z * b.y, a.z * b.x - a.x * b.z, a.x * b.y - a.y * b.x, 0⟩

instance : Add Vec4 := ⟨Vec4.add⟩

instance : Sub Vec4 := ⟨Vec4.sub⟩

instance : Neg Vec4 := ⟨Vec4.neg⟩

instance : Zero Vec4 := ⟨⟨0, 0, 0, 0⟩⟩

instance : SMul ℚ Vec4 := ⟨Vec4.smul⟩

instance : HDiv Vec4 ℚ Vec4 := ⟨Vec4.divS⟩

@[simp] theorem add_def (a b : Vec4) :
    a + b = ⟨a.x + b.x, a.y + b.y, a.z + b.z, a.w + b.w⟩ := rfl

@[simp] theorem sub_def (a b : Vec4) :
    a - b = ⟨a.x - b.x, a.y - b.y, a.z - b.z, a.w - b.w⟩ := rfl

@[simp] theorem neg_def (a : Vec4) : -a = ⟨-a.x, -a.y, -a.z, -a.w⟩ := rfl

@[simp] theorem smul_def (c : ℚ) (a : Vec4) :
    c • a = ⟨c * a.x, c * a.y, c * a.z, c * a.w⟩ := rfl

@[simp] theorem divS_def (a : Vec4) (c : ℚ) :
    a / c = ⟨a.x / c, a.y / c, a.z / c, a.w / c⟩ := rfl

@[simp] theorem zero_def : (0 : Vec4) = ⟨0, 0, 0, 0⟩ := rfl

theorem dot_self_nonneg (v : Vec4) : 0 ≤ dot v v := by
  have hx := mul_self_nonneg v.x
  have hy := mul_self_nonneg v.y
  have hz := mul_self_nonneg v.z
  have hw := mul_self_nonneg v.w
  simp only [dot]
  linarith

theorem dot_self_eq_zero_iff (v : Vec4) : dot v v = 0 ↔ v = 0 := by
  constructor
  · intro h
    have hx := mul_self_nonneg v.x
    have hy := mul_self_nonneg v.y
    have hz := mul_self_nonneg v.z
    have hw := mul_self_nonneg v.w
    simp only [dot] at h
    ext
    · exact mul_self_eq_zero.mp (by linarith)
    · exact mul_self_eq_zero.mp (by linarith)
    · exact mul_self_eq_zero.mp (by linarith)
    · exact mul_self_eq_zero.mp (by linarith)
  · intro h
    subst h
    simp [dot]

end Vec4

/-- An entry of the particle buffer.  Modelled from the spec: the
`Particles` class is not under `src/`; the spec's data model lists per
particle a position, velocity, acceleration, mass, inverse mass and
rotation, accessed by index. -/
structure Particle where
  pos : Vec4
  vel : Vec4
  acc : Vec4
  mass : ℚ
  invMass : ℚ
  rot : Vec4
deriving DecidableEq, Repr

/-- Simulation constants.  Modelled from the spec: `configs.h` is not
under `src/`; the spec names a fixed timestep constant, a friction
coefficient constant and a sphere density constant.  The field `sq`
is the square-root oracle standing for `sqrtf`. -/
structure Config where
  deltaTime : ℚ
  frictionCoef : ℚ
  sphereDensity : ℚ
  sq : ℚ → ℚ

/-- State owned by `Spheres`: the particle buffer, the radius buffer
with its length, the sphere count, and the particle-buffer capacity
(`_particles.getCapacity()`). -/
structure SpheresState where
  particles : ℕ → Particle
  radius : ℕ → ℚ
  sphereCount : ℕ
  capacity : ℕ
  radiusLen : ℕ

/-- State owned by `Cloth`: its particle buffer and the particle count
`particlesPerEdge * particlesPerEdge`. -/
structure ClothState where
  particles : ℕ → Particle
  numParticles : ℕ

/-- Combined state touched by `Spheres::collide(Cloth*)`. -/
structure World where
  sph : SpheresState
  cl : ClothState

/-- Source: `v.norm()`: square root of the squared norm. -/
def vnorm (c : Config) (v : Vec4) : ℚ := c.sq (Vec4.dot v v)

/-- Source: `v.normalized()`: Eigen divides by the norm only when the squared
norm is positive and otherwise returns the vector unchanged. -/
def normalized (c : Config) (v : Vec4) : Vec4 :=
  if 0 < Vec4.dot v v then v / c.sq (Vec4.dot v v) else v

theorem normalized_zero (c : Config) : normalized c 0 = 0 := by
  simp [normalized, Vec4.dot]

theorem dot_normalized_self (c : Config) (v : Vec4)
    (hpos : 0 < Vec4.dot v v)
    (hsq : c.sq (Vec4.dot v v) * c.sq (Vec4.dot v v) = Vec4.dot v v) :
    Vec4.dot (normalized c v) (normalized c v) = 1 := by
  have hs : c.sq (Vec4.dot v v) ≠ 0 := by
    intro h0
    rw [h0, zero_mul] at hsq
    exact absurd hsq.symm (ne_of_gt hpos)
  rw [normalized, if_pos hpos]
  simp only [instHDiv, Vec4.divS, Vec4.dot] at hsq hs ⊢
  field_simp [hs]
  linarith [hsq]

namespace SS

/-!
Shallow embedding of `Spheres::collide()` (sphere.cpp lines 187-228).
Within one pair iteration the C++ code mutates the two particles'
velocity, rotation and position in sequence; every value it reads is
determined by the state at the start of the iteration, so each
intermediate is a function of that state.  The names follow the locals
of the source (`vec`, `v1`, `v1_after`, `normal_force_value`,
`move_friction_1`, `rotate_direction_1`, `I1`, `penetration`,
`correction`).
-/

/-- Source: `vec = _particles.position(i) - _particles.position(j)` (line 190). -/
def vecJI (c : Config) (s : SpheresState) (j i : ℕ) : Vec4 :=
  (s.particles i).pos - (s.particles j).pos

/-- Source: `vec.normalized()`. -/
def nrm (c : Config) (s : SpheresState) (j i : ℕ) : Vec4 :=
  normalized c (vecJI c s j i)

/-- Source: `v1 = vec.normalized().dot(velocity(j)) * vec.normalized()` (line 191). -/
def v1 (c : Config) (s : SpheresState) (j i : ℕ) : Vec4 :=
  Vec4.dot (nrm c s j i) ((s.particles j).vel) • nrm c s j i

/-- Source: `v2 = vec.normalized().dot(velocity(i)) * vec.normalized()` (line 192). -/
def v2 (c : Config) (s : SpheresState) (j i : ℕ) : Vec4 :=
  Vec4.dot (nrm c s j i) ((s.particles i).vel) • nrm c s j i

/-- Source: `v1_after = (m1*v1 + m2*v2 + m2*0.8*(v2 - v1)) / (m1 + m2)` (line 194). -/
def v1after (c : Config) (s : SpheresState) (j i : ℕ) : Vec4 :=
  ((s.particles j).mass • v1 c s j i + (s.particles i).mass • v2 c s j i +
      ((s.particles i).mass * (8 / 10)) • (v2 c s j i - v1 c s j i)) /
    ((s.particles j).mass + (s.particles i).mass)

/-- Source: `v2_after = (m1*v1 + m2*v2 + m1*0.8*(v1 - v2)) / (m1 + m2)` (line 195). -/
def v2after (c : Config) (s : SpheresState) (j i : ℕ) : Vec4 :=
  ((s.particles j).mass • v1 c s j i + (s.particles i).mass • v2 c s j i +
      ((s.particles j).mass * (8 / 10)) • (v1 c s j i - v2 c s j i)) /
    ((s.particles j).mass + (s.particles i).mass)

/-- Velocity of sphere `j` after `velocity(j) += -v1 + v1_after` (line 196). -/
def velJ1 (c : Config) (s : SpheresState) (j i : ℕ) : Vec4 :=
  (s.particles j).vel + (-(v1 c s j i) + v1after c s j i)

/-- Velocity of sphere `i` after `velocity(i) += -v2 + v2_after` (line 197). -/
def velI1 (c : Config) (s : SpheresState) (j i : ℕ) : Vec4 :=
  (s.particles i).vel + (-(v2 c s j i) + v2after c s j i)

/-- Source: `normal_force_value = ((v1_after - v1) / deltaTime * mass(j)).norm()` (line 199). -/
def nfv (c : Config) (s : SpheresState) (j i : ℕ) : ℚ :=
  vnorm c ((s.particles j).mass • ((v1after c s j i - v1 c s j i) / c.deltaTime))

/-- Reassigned `v1 = (velocity(j) - v1).normalized()` (line 200), reading the
already-updated velocity of `j`. -/
def u1 (c : Config) (s : SpheresState) (j i : ℕ) : Vec4 :=
  normalized c (velJ1 c s j i - v1 c s j i)

/-- Reassigned `v2 = (velocity(i) - v2).normalized()` (line 201). -/
def u2 (c : Config) (s : SpheresState) (j i : ℕ) : Vec4 :=
  normalized c (velI1 c s j i - v2 c s j i)

/-- Source: `move_friction_1 = (v2 - v1) * normal_force_value * frictionCoef` (line 202). -/
def mf1 (c : Config) (s : SpheresState) (j i : ℕ) : Vec4 :=
  c.frictionCoef • (nfv c s j i • (u2 c s j i - u1 c s j i))

/-- Source: `move_friction_2 = (v1 - v2) * normal_force_value * frictionCoef` (line 203). -/
def mf2 (c : Config) (s : SpheresState) (j i : ℕ) : Vec4 :=
  c.frictionCoef • (nfv c s j i • (u1 c s j i - u2 c s j i))

/-- Velocity of `j` after `velocity(j) += deltaTime * move_friction_1 * inverseMass(j)`
(line 204). -/
def velJ2 (c : Config) (s : SpheresState) (j i : ℕ) : Vec4 :=
  velJ1 c s j i + (s.particles j).invMass • (c.deltaTime • mf1 c s j i)

/-- Velocity of `i` after `velocity(i) += deltaTime * move_friction_2 * inverseMass(i)`
(line 205). -/
def velI2 (c : Config) (s : SpheresState) (j i : ℕ) : Vec4 :=
  velI1 c s j i + (s.particles i).invMass • (c.deltaTime • mf2 c s j i)

/-- Source: `rotate_direction_1 = rotation(j).cross3(vec.normalized()).normalized()` (line 207). -/
def rd1 (c : Config) (s : SpheresState) (j i : ℕ) : Vec4 :=
  normalized c (Vec4.cross3 ((s.particles j).rot) (nrm c s j i))

/-- Source: `rotate_direction_2 = rotation(i).cross3(vec.normalized()).normalized()` (line 208). -/
def rd2 (c : Config) (s : SpheresState) (j i : ℕ) : Vec4 :=
  normalized c (Vec4.cross3 ((s.particles i).rot) (nrm c s j i))

/-- Velocity of `j` after `velocity(j) += deltaTime * rotate_direction_1 * inverseMass(j)`
(line 213; the source adds the unit direction itself, not `rotate_friction_1`). -/
def velJ3 (c : Config) (s : SpheresState) (j i : ℕ) : Vec4 :=
  velJ2 c s j i + (s.particles j).invMass • (c.deltaTime • rd1 c s j i)

/-- Velocity of `i` after `velocity(i) += deltaTime * rotate_direction_2 * inverseMass(i)`
(line 214). -/
def velI3 (c : Config) (s : SpheresState) (j i : ℕ) : Vec4 :=
  velI2 c s j i + (s.particles i).invMass • (c.deltaTime • rd2 c s j i)

/-- Source: `I = 2/5 * mass * radius * radius` (lines 216-217). -/
def inertia (s : SpheresState) (k : ℕ) : ℚ :=
  2 / 5 * (s.particles k).mass * s.radius k * s.radius k

/-- Rotation of `j` after
`rotation(j) += (vec.normalized().cross3(move_friction_1 + rotate_direction_1) / I1) * deltaTime`
(line 218). -/
def rotJ2 (c : Config) (s : SpheresState) (j i : ℕ) : Vec4 :=
  (s.particles j).rot +
    c.deltaTime • (Vec4.cross3 (nrm c s j i) (mf1 c s j i + rd1 c s j i) / inertia s j)

/-- Rotation of `i` after the line-219 update with `move_friction_2 + rotate_direction_2`. -/
def rotI2 (c : Config) (s : SpheresState) (j i : ℕ) : Vec4 :=
  (s.particles i).rot +
    c.deltaTime • (Vec4.cross3 (nrm c s j i) (mf2 c s j i + rd2 c s j i) / inertia s i)

/-- Source: `penetration = radius[j] + radius[i] - abs((position(i) - position(j)).norm())`
(line 221; positions are untouched up to this line). -/
def pen (c : Config) (s : SpheresState) (j i : ℕ) : ℚ :=
  s.radius j + s.radius i - |vnorm c (vecJI c s j i)|

/-- Source: `correction = penetration * vec.normalized() * 0.15` (line 222). -/
def corr (c : Config) (s : SpheresState) (j i : ℕ) : Vec4 :=
  (15 / 100 : ℚ) • (pen c s j i • nrm c s j i)

/-- Position of `i` after `position(i) += correction` (line 223). -/
def posI2 (c : Config) (s : SpheresState) (j i : ℕ) : Vec4 :=
  (s.particles i).pos + corr c s j i

/-- Position of `j` after `position(j) -= correction` (line 224). -/
def posJ2 (c : Config) (s : SpheresState) (j i : ℕ) : Vec4 :=
  (s.particles j).pos - corr c s j i

/-- The whole body of one colliding iteration (lines 190-224): velocity,
rotation and position of the two spheres are updated, everything else is
untouched. -/
def response (c : Config) (s : SpheresState) (j i : ℕ) : SpheresState :=
  { s with
    particles :=
      Function.update
        (Function.update s.particles j
          { s.particles j with
            vel := velJ3 c s j i, rot := rotJ2 c s j i, pos := posJ2 c s j i })
        i
        { s.particles i with
          vel := velI3 c s j i, rot := rotI2 c s j i, pos := posI2 c s j i } }

/-- One iteration of the nested loops: the body runs only when
`(position(i) - position(j)).norm() <= radius[j] + radius[i]` (line 189). -/
def step (c : Config) (s : SpheresState) (p : ℕ × ℕ) : SpheresState :=
  if vnorm c (vecJI c s p.1 p.2) ≤ s.radius p.1 + s.radius p.2 then
    response c s p.1 p.2
  else s

/-- The index pairs visited by the nested loops
`for j in [0, sphereCount); for i in [j+1, sphereCount)` (lines 187-188),
in execution order. -/
def pairList (n : ℕ) : List (ℕ × ℕ) :=
  (List.range n).flatMap fun j => (List.range' (j + 1) (n - (j + 1))).map fun i => (j, i)

/-- Source: `Spheres::collide()`: fold the guarded pair response over all pairs. -/
def collide (c : Config) (s : SpheresState) : SpheresState :=
  (pairList s.sphereCount).foldl (step c) s

/-- Sum of `mass * velocity` over the first `n` spheres. -/
def totalMomentum (s : SpheresState) (n : ℕ) : Vec4 :=
  (List.range n).foldl (fun acc k => acc + (s.particles k).mass • (s.particles k).vel) 0

end SS

namespace SC

/-!
Shallow embedding of `Spheres::collide(Cloth*)` (sphere.cpp lines
117-172).  Sphere `j` is tested against every cloth particle `i`; the
structure mirrors the sphere-sphere case with restitution 0, with two
asymmetries present in the source: only the sphere's rotation is
updated, the sphere's velocity receives `deltaTime * rotate_direction_1
* inverseMass(j)` (line 159) while the cloth particle's velocity
receives `deltaTime * rotate_friction_2 * inverseMass(i)` with
`rotate_friction_2 = rotate_direction_1 * normal_force_value *
frictionCoef` (lines 158, 160).
-/

/-- Source: `vec = cloth.position(i) - spheres.position(j)` (line 138). -/
def vecJI (c : Config) (w : World) (j i : ℕ) : Vec4 :=
  (w.cl.particles i).pos - (w.sph.particles j).pos

/-- Source: `vec.normalized()`. -/
def nrm (c : Config) (w : World) (j i : ℕ) : Vec4 :=
  normalized c (vecJI c w j i)

/-- Source: `v1 = vec.normalized().dot(spheres.velocity(j)) * vec.normalized()` (line 139). -/
def v1 (c : Config) (w : World) (j i : ℕ) : Vec4 :=
  Vec4.dot (nrm c w j i) ((w.sph.particles j).vel) • nrm c w j i

/-- Source: `v2 = vec.normalized().dot(cloth.velocity(i)) * vec.normalized()` (line 140). -/
def v2 (c : Config) (w : World) (j i : ℕ) : Vec4 :=
  Vec4.dot (nrm c w j i) ((w.cl.particles i).vel) • nrm c w j i

/-- Source: `v1_after = (m1*v1 + m2*v2) / (m1 + m2)` (line 142, restitution 0). -/
def v1after (c : Config) (w : World) (j i : ℕ) : Vec4 :=
  ((w.sph.particles j).mass • v1 c w j i + (w.cl.particles i).mass • v2 c w j i) /
    ((w.sph.particles j).mass + (w.cl.particles i).mass)

/-- Source: `v2_after = (m1*v1 + m2*v2) / (m1 + m2)` (line 143). -/
def v2after (c : Config) (w : World) (j i : ℕ) : Vec4 :=
  ((w.sph.particles j).mass • v1 c w j i + (w.cl.particles i).mass • v2 c w j i) /
    ((w.sph.particles j).mass + (w.cl.particles i).mass)

/-- Sphere velocity after `velocity(j) += -v1 + v1_after` (line 144). -/
def velJ1 (c : Config) (w : World) (j i : ℕ) : Vec4 :=
  (w.sph.particles j).vel + (-(v1 c w j i) + v1after c w j i)

/-- Cloth velocity after `velocity(i) += -v2 + v2_after` (line 145). -/
def velI1 (c : Config) (w : World) (j i : ℕ) : Vec4 :=
  (w.cl.particles i).vel + (-(v2 c w j i) + v2after c w j i)

/-- Source: `normal_force_value = ((v1_after - v1) / deltaTime * mass(j)).norm()` (line 147). -/
def nfv (c : Config) (w : World) (j i : ℕ) : ℚ :=
  vnorm c ((w.sph.particles j).mass • ((v1after c w j i - v1 c w j i) / c.deltaTime))

/-- Reassigned `v1 = (velocity(j) - v1).normalized()` (line 148). -/
def u1 (c : Config) (w : World) (j i : ℕ) : Vec4 :=
  normalized c (velJ1 c w j i - v1 c w j i)

/-- Reassigned `v2 = (velocity(i) - v2).normalized()` (line 149). -/
def u2 (c : Config) (w : World) (j i : ℕ) : Vec4 :=
  normalized c (velI1 c w j i - v2 c w j i)

/-- Source: `move_friction_1 = (v2 - v1) * normal_force_value * frictionCoef` (line 150). -/
def mf1 (c : Config) (w : World) (j i : ℕ) : Vec4 :=
  c.frictionCoef • (nfv c w j i • (u2 c w j i - u1 c w j i))

/-- Source: `move_friction_2 = (v1 - v2) * normal_force_value * frictionCoef` (line 151). -/
def mf2 (c : Config) (w : World) (j i : ℕ) : Vec4 :=
  c.frictionCoef • (nfv c w j i • (u1 c w j i - u2 c w j i))

/-- Sphere velocity after line 152. -/
def velJ2 (c : Config) (w : World) (j i : ℕ) : Vec4 :=
  velJ1 c w j i + (w.sph.particles j).invMass • (c.deltaTime • mf1 c w j i)

/-- Cloth velocity after line 153. -/
def velI2 (c : Config) (w : World) (j i : ℕ) : Vec4 :=
  velI1 c w j i + (w.cl.particles i).invMass • (c.deltaTime • mf2 c w j i)

/-- Source: `rotate_direction_1 = rotation(j).cross3(vec.normalized()).normalized()` (line 155). -/
def rd1 (c : Config) (w : World) (j i : ℕ) : Vec4 :=
  normalized c (Vec4.cross3 ((w.sph.particles j).rot) (nrm c w j i))

/-- Source: `rotate_friction_2 = rotate_direction_1 * normal_force_value * frictionCoef` (line 158). -/
def rotfr2 (c : Config) (w : World) (j i : ℕ) : Vec4 :=
  c.frictionCoef • (nfv c w j i • rd1 c w j i)

/-- Sphere velocity after `velocity(j) += deltaTime * rotate_direction_1 * inverseMass(j)`
(line 159; the source adds the unit direction itself). -/
def velJ3 (c : Config) (w : World) (j i : ℕ) : Vec4 :=
  velJ2 c w j i + (w.sph.particles j).invMass • (c.deltaTime • rd1 c w j i)

/-- Cloth velocity after `velocity(i) += deltaTime * rotate_friction_2 * inverseMass(i)`
(line 160). -/
def velI3 (c : Config) (w : World) (j i : ℕ) : Vec4 :=
  velI2 c w j i + (w.cl.particles i).invMass • (c.deltaTime • rotfr2 c w j i)

/-- Source: `I1 = 2/5 * mass(j) * radius[j] * radius[j]` (line 162). -/
def inertia1 (w : World) (j : ℕ) : ℚ :=
  2 / 5 * (w.sph.particles j).mass * w.sph.radius j * w.sph.radius j

/-- Sphere rotation after line 163. -/
def rotJ2 (c : Config) (w : World) (j i : ℕ) : Vec4 :=
  (w.sph.particles j).rot +
    c.deltaTime • (Vec4.cross3 (nrm c w j i) (mf1 c w j i + rd1 c w j i) / inertia1 w j)

/-- Source: `penetration = radius[j] - abs((cloth.position(i) - spheres.position(j)).norm())`
(line 165). -/
def pen (c : Config) (w : World) (j i : ℕ) : ℚ :=
  w.sph.radius j - |vnorm c (vecJI c w j i)|

/-- Source: `correction = penetration * vec.normalized() * 0.15` (line 166). -/
def corr (c : Config) (w : World) (j i : ℕ) : Vec4 :=
  (15 / 100 : ℚ) • (pen c w j i • nrm c w j i)

/-- Cloth position after `position(i) += correction` (line 167). -/
def posI2 (c : Config) (w : World) (j i : ℕ) : Vec4 :=
  (w.cl.particles i).pos + corr c w j i

/-- Sphere position after `position(j) -= correction` (line 168). -/
def posJ2 (c : Config) (w : World) (j i : ℕ) : Vec4 :=
  (w.sph.particles j).pos - corr c w j i

/-- The body of one colliding iteration (lines 138-168): the sphere's
velocity, rotation and position and the cloth particle's velocity and
position are updated; the cloth particle's rotation and all other
fields are untouched. -/
def response (c : Config) (w : World) (j i : ℕ) : World :=
  { sph :=
      { w.sph with
        particles :=
          Function.update w.sph.particles j
            { w.sph.particles j with
              vel := velJ3 c w j i, rot := rotJ2 c w j i, pos := posJ2 c w j i } }
    cl :=
      { w.cl with
        particles :=
          Function.update w.cl.particles i
            { w.cl.particles i with
              vel := velI3 c w j i, pos := posI2 c w j i } } }

/-- One iteration of the nested loops: the body runs only when
`(cloth.position(i) - spheres.position(j)).norm() <= radius[j]` (line 137). -/
def step (c : Config) (w : World) (p : ℕ × ℕ) : World :=
  if vnorm c (vecJI c w p.1 p.2) ≤ w.sph.radius p.1 then
    response c w p.1 p.2
  else w

/-- The index pairs visited by
`for j in [0, sphereCount); for i in [0, particlesPerEdge^2)` (lines 135-136),
in execution order. -/
def pairList (nSph nCl : ℕ) : List (ℕ × ℕ) :=
  (List.range nSph).flatMap fun j => (List.range nCl).map fun i => (j, i)

/-- Source: `Spheres::collide(Cloth*)`: fold the guarded response over all
sphere/cloth-particle pairs. -/
def collideCloth (c : Config) (w : World) : World :=
  (pairList w.sph.sphereCount w.cl.numParticles).foldl (step c) w

end SC

/-- Source: `Spheres::addSphere` (sphere.cpp lines 56-71): when the sphere count
has reached the particle-buffer capacity, the particle and radius
buffers are resized to twice the sphere count; then the radius,
position, velocity, acceleration and mass (`sphereDensity * size^3`) of
the new slot are written and the count is incremented.  Modelled from
the spec where the `Particles` class is missing from `src/`:
`Particles::resize` reallocates the buffer, preserving stored contents;
the GPU `offsets`/`sizes` buffers are rendering plumbing outside the
spec's scope and are not modelled.  Inverse mass and rotation of the new
slot are not written by the source and keep their buffer contents. -/
def addSphere (c : Config) (s : SpheresState) (position : Vec4) (size : ℚ) : SpheresState :=
  let s1 :=
    if s.sphereCount = s.capacity then
      { s with capacity := s.sphereCount * 2, radiusLen := s.sphereCount * 2 }
    else s
  { s1 with
    radius := Function.update s1.radius s1.sphereCount size
    particles :=
      Function.update s1.particles s1.sphereCount
        { s1.particles s1.sphereCount with
          pos := position
          vel := 0
          acc := 0
          mass := c.sphereDensity * size * size * size }
    sphereCount := s1.sphereCount + 1 }

/-- A sequence of `addSphere` calls. -/
def applyCalls (c : Config) (s : SpheresState) (calls : List (Vec4 × ℚ)) : SpheresState :=
  calls.foldl (fun st p => addSphere c st p.1 p.2) s

/-- The particle fields never written by the collision resolver. -/
def fixedFields (p : Particle) : Vec4 × ℚ × ℚ := (p.acc, p.mass, p.invMass)

/-- Nonnegativity of a square-root argument together with the guard that
its square root is nonzero whenever the argument is positive (the only
case in which Eigen's `normalized()` divides by it). -/
def sqOk (c : Config) (v : Vec4) : Prop :=
  0 ≤ Vec4.dot v v ∧ (0 < Vec4.dot v v → c.sq (Vec4.dot v v) ≠ 0)

/-- All division sites of one sphere-sphere pair response: the impulse
denominators `m1 + m2`, the `deltaTime` division in
`normal_force_value`, the inertia divisions, and the guarded divisions
inside the five `normalized()` calls; together with nonnegativity of
every `sqrtf` argument. -/
def SSdivOk (c : Config) (s : SpheresState) (j i : ℕ) : Prop :=
  (s.particles j).mass + (s.particles i).mass ≠ 0 ∧
  c.deltaTime ≠ 0 ∧
  SS.inertia s j ≠ 0 ∧
  SS.inertia s i ≠ 0 ∧
  sqOk c (SS.vecJI c s j i) ∧
  sqOk c ((s.particles j).mass • ((SS.v1after c s j i - SS.v1 c s j i) / c.deltaTime)) ∧
  sqOk c (SS.velJ1 c s j i - SS.v1 c s j i) ∧
  sqOk c (SS.velI1 c s j i - SS.v2 c s j i) ∧
  sqOk c (Vec4.cross3 ((s.particles j).rot) (SS.nrm c s j i)) ∧
  sqOk c (Vec4.cross3 ((s.particles i).rot) (SS.nrm c s j i))

/-- All division sites of one sphere-cloth pair response. -/
def SCdivOk (c : Config) (w : World) (j i : ℕ) : Prop :=
  (w.sph.particles j).mass + (w.cl.particles i).mass ≠ 0 ∧
  c.deltaTime ≠ 0 ∧
  SC.inertia1 w j ≠ 0 ∧
  sqOk c (SC.vecJI c w j i) ∧
  sqOk c ((w.sph.particles j).mass • ((SC.v1after c w j i - SC.v1 c w j i) / c.deltaTime)) ∧
  sqOk c (SC.velJ1 c w j i - SC.v1 c w j i) ∧
  sqOk c (SC.velI1 c w j i - SC.v2 c w j i) ∧
  sqOk c (Vec4.cross3 ((w.sph.particles j).rot) (SC.nrm c w j i))

namespace Vec4

theorem dot_add_right (u a b : Vec4) : dot u (a + b) = dot u a + dot u b := by
  simp only [add_def, dot]
  ring

theorem dot_sub_right (u a b : Vec4) : dot u (a - b) = dot u a - dot u b := by
  simp only [sub_def, dot]
  ring

theorem dot_neg_right (u a : Vec4) : dot u (-a) = -dot u a := by
  simp only [neg_def, dot]
  ring

theorem dot_smul_right (u : Vec4) (r : ℚ) (a : Vec4) : dot u (r • a) = r * dot u a := by
  simp only [smul_def, dot]
  ring

theorem dot_divS_right (u a : Vec4) (r : ℚ) : dot u (a / r) = dot u a / r := by
  simp only [divS_def, dot]
  ring

theorem dot_smul_left (r : ℚ) (a u : Vec4) : dot (r • a) u = r * dot a u := by
  simp only [smul_def, dot]
  ring

theorem cross3_zero_left (b : Vec4) : cross3 0 b = 0 := by
  simp [cross3]

theorem smul_zero_vec (r : ℚ) : r • (0 : Vec4) = 0 := by
  simp

end Vec4

theorem mem_pairListSS {n : ℕ} {a b : ℕ} :
    (a, b) ∈ SS.pairList n ↔ a < b ∧ b < n := by
  simp only [SS.pairList, List.mem_flatMap, List.mem_map, List.mem_range,
    List.mem_range'_1, Prod.mk.injEq]
  constructor
  · rintro ⟨j, hj, i, ⟨h1, h2⟩, h3, h4⟩
    omega
  · rintro ⟨hab, hbn⟩
    exact ⟨a, by omega, b, ⟨by omega, by omega⟩, rfl, rfl⟩

theorem pairListSS_nodup (n : ℕ) : (SS.pairList n).Nodup := by
  rw [SS.pairList, List.nodup_flatMap]
  constructor
  · intro j hj
    exact List.Nodup.map (fun a b h => ((Prod.mk.injEq _ _ _ _).mp h).2)
      (List.nodup_range' _ _)
  · have hlt := List.pairwise_lt_range n
    refine hlt.imp ?_
    intro j j' hjj' q hq hq'
    simp only [List.mem_map] at hq hq'
    obtain ⟨i, _, hi⟩ := hq
    obtain ⟨i', _, hi'⟩ := hq'
    rw [← hi'] at hi
    have := ((Prod.mk.injEq _ _ _ _).mp hi).1
    omega

theorem mem_pairListSC {nSph nCl : ℕ} {a b : ℕ} :
    (a, b) ∈ SC.pairList nSph nCl ↔ a < nSph ∧ b < nCl := by
  simp only [SC.pairList, List.mem_flatMap, List.mem_map, List.mem_range,
    Prod.mk.injEq]
  constructor
  · rintro ⟨j, hj, i, hi, h3, h4⟩
    omega
  · rintro ⟨ha, hb⟩
    exact ⟨a, ha, b, hb, rfl, rfl⟩

theorem foldl_fixed_of_step_fixed {α β : Type} (f : α → β → α) (g : α → α → Prop)
    (hrefl : ∀ a, g a a) (htrans : ∀ a b c, g a b → g b c → g a c)
    (hstep : ∀ a p, g a (f a p)) :
    ∀ (l : List β) (a : α), g a (l.foldl f a) := by
  intro l
  induction l with
  | nil => intro a; exact hrefl a
  | cons p t ih =>
    intro a
    exact htrans _ _ _ (hstep a p) (ih (f a p))

theorem foldl_id_of_step_id {α β : Type} (f : α → β → α) (a : α) :
    ∀ l : List β, (∀ p ∈ l, f a p = a) → l.foldl f a = a := by
  intro l
  induction l with
  | nil => intro _; rfl
  | cons p t ih =>
    intro h
    have hp : f a p = a := h p (List.mem_cons_self p t)
    rw [List.foldl_cons, hp]
    exact ih fun q hq => h q (List.mem_cons_of_mem p hq)

/-- Claim C2: `Spheres::collide()` examines every unordered pair of
distinct spheres exactly once (it folds over `pairList`, which contains
each `(j, i)` with `j < i < sphereCount` exactly once), and for a pair
within collision range the impulse update gives the two velocities
normal components
`(m1*v1 + m2*v2 + m2*0.8*(v2 - v1)) / (m1 + m2)` and
`(m1*v1 + m2*v2 + m1*0.8*(v1 - v2)) / (m1 + m2)`, where `v1`, `v2` are
the velocity components along the center-to-center normal, assuming the
square-root oracle is exact at the squared center distance. -/
theorem C2_pairs_and_impulse (c : Config) (s : SpheresState) (j i : ℕ)
    (hpos : 0 < Vec4.dot (SS.vecJI c s j i) (SS.vecJI c s j i))
    (hsq : c.sq (Vec4.dot (SS.vecJI c s j i) (SS.vecJI c s j i)) *
        c.sq (Vec4.dot (SS.vecJI c s j i) (SS.vecJI c s j i)) =
        Vec4.dot (SS.vecJI c s j i) (SS.vecJI c s j i))
    (hm : (s.particles j).mass + (s.particles i).mass ≠ 0)
    (hhit : vnorm c (SS.vecJI c s j i) ≤ s.radius j + s.radius i) :
    SS.collide c s = (SS.pairList s.sphereCount).foldl (SS.step c) s ∧
    ((j, i) ∈ SS.pairList s.sphereCount ↔ j < i ∧ i < s.sphereCount) ∧
    (SS.pairList s.sphereCount).Nodup ∧
    Vec4.dot (SS.nrm c s j i) (SS.velJ1 c s j i) =
      ((s.particles j).mass * Vec4.dot (SS.nrm c s j i) ((s.particles j).vel) +
        (s.particles i).mass * Vec4.dot (SS.nrm c s j i) ((s.particles i).vel) +
        (s.particles i).mass * (8 / 10) *
          (Vec4.dot (SS.nrm c s j i) ((s.particles i).vel) -
            Vec4.dot (SS.nrm c s j i) ((s.particles j).vel))) /
        ((s.particles j).mass + (s.particles i).mass) ∧
    Vec4.dot (SS.nrm c s j i) (SS.velI1 c s j i) =
      ((s.particles j).mass * Vec4.dot (SS.nrm c s j i) ((s.particles j).vel) +
        (s.particles i).mass * Vec4.dot (SS.nrm c s j i) ((s.particles i).vel) +
        (s.particles j).mass * (8 / 10) *
          (Vec4.dot (SS.nrm c s j i) ((s.particles j).vel) -
            Vec4.dot (SS.nrm c s j i) ((s.particles i).vel))) /
        ((s.particles j).mass + (s.particles i).mass) := by
  have hnn : Vec4.dot (SS.nrm c s j i) (SS.nrm c s j i) = 1 := by
    rw [SS.nrm]
    exact dot_normalized_self c _ hpos hsq
  refine ⟨rfl, mem_pairListSS, pairListSS_nodup _, ?_, ?_⟩
  · simp only [SS.velJ1, SS.v1after, SS.v1, SS.v2, Vec4.dot_add_right,
      Vec4.dot_neg_right, Vec4.dot_sub_right, Vec4.dot_smul_right,
      Vec4.dot_divS_right, hnn, mul_one]
    field_simp
  · simp only [SS.velI1, SS.v2after, SS.v1, SS.v2, Vec4.dot_add_right,
      Vec4.dot_neg_right, Vec4.dot_sub_right, Vec4.dot_smul_right,
      Vec4.dot_divS_right, hnn, mul_one]
    field_simp

/-- Claim C3: `Spheres::collide(Cloth*)` applies the collision response
with restitution coefficient 0: it folds over every
sphere/cloth-particle pair, and for a cloth particle within the
sphere's radius the impulse update sets both post-impulse normal
velocity components to the mass-weighted average
`(m1*v1 + m2*v2) / (m1 + m2)`, assuming the square-root oracle is exact
at the squared distance. -/
theorem C3_cloth_inelastic (c : Config) (w : World) (j i : ℕ)
    (hpos : 0 < Vec4.dot (SC.vecJI c w j i) (SC.vecJI c w j i))
    (hsq : c.sq (Vec4.dot (SC.vecJI c w j i) (SC.vecJI c w j i)) *
        c.sq (Vec4.dot (SC.vecJI c w j i) (SC.vecJI c w j i)) =
        Vec4.dot (SC.vecJI c w j i) (SC.vecJI c w j i))
    (hm : (w.sph.particles j).mass + (w.cl.particles i).mass ≠ 0)
    (hhit : vnorm c (SC.vecJI c w j i) ≤ w.sph.radius j) :
    SC.collideCloth c w =
      (SC.pairList w.sph.sphereCount w.cl.numParticles).foldl (SC.step c) w ∧
    ((j, i) ∈ SC.pairList w.sph.sphereCount w.cl.numParticles ↔
      j < w.sph.sphereCount ∧ i < w.cl.numParticles) ∧
    Vec4.dot (SC.nrm c w j i) (SC.velJ1 c w j i) =
      ((w.sph.particles j).mass * Vec4.dot (SC.nrm c w j i) ((w.sph.particles j).vel) +
        (w.cl.particles i).mass * Vec4.dot (SC.nrm c w j i) ((w.cl.particles i).vel)) /
        ((w.sph.particles j).mass + (w.cl.particles i).mass) ∧
    Vec4.dot (SC.nrm c w j i) (SC.velI1 c w j i) =
      ((w.sph.particles j).mass * Vec4.dot (SC.nrm c w j i) ((w.sph.particles j).vel) +
        (w.cl.particles i).mass * Vec4.dot (SC.nrm c w j i) ((w.cl.particles i).vel)) /
        ((w.sph.particles j).mass + (w.cl.particles i).mass) := by
  have hnn : Vec4.dot (SC.nrm c w j i) (SC.nrm c w j i) = 1 := by
    rw [SC.nrm]
    exact dot_normalized_self c _ hpos hsq
  refine ⟨rfl, mem_pairListSC, ?_, ?_⟩
  · simp only [SC.velJ1, SC.v1after, SC.v1, SC.v2, Vec4.dot_add_right,
      Vec4.dot_neg_right, Vec4.dot_sub_right, Vec4.dot_smul_right,
      Vec4.dot_divS_right, hnn, mul_one]
    field_simp
  · simp only [SC.velI1, SC.v2after, SC.v1, SC.v2, Vec4.dot_add_right,
      Vec4.dot_neg_right, Vec4.dot_sub_right, Vec4.dot_smul_right,
      Vec4.dot_divS_right, hnn, mul_one]
    field_simp

/-- Claim C4: for a colliding pair handled by `Spheres::collide()` or
`Spheres::collide(Cloth*)`, the positional correction moves the two
bodies by `penetration * normal * 0.15` in opposite directions, with
penetration `(radius j + radius i) - distance` in the sphere-sphere
case and `radius j - distance` in the sphere-cloth case (the norm
returned by the oracle being nonnegative, as `sqrtf` is on these
arguments). -/
theorem C4_positional_correction (c : Config) (s : SpheresState) (w : World) (j i : ℕ)
    (hji : j ≠ i)
    (hhitS : vnorm c (SS.vecJI c s j i) ≤ s.radius j + s.radius i)
    (hnS : 0 ≤ vnorm c (SS.vecJI c s j i))
    (hhitC : vnorm c (SC.vecJI c w j i) ≤ w.sph.radius j)
    (hnC : 0 ≤ vnorm c (SC.vecJI c w j i)) :
    ((SS.step c s (j, i)).particles i).pos =
      (s.particles i).pos +
        (15 / 100 : ℚ) •
          ((s.radius j + s.radius i - vnorm c (SS.vecJI c s j i)) • SS.nrm c s j i) ∧
    ((SS.step c s (j, i)).particles j).pos =
      (s.particles j).pos -
        (15 / 100 : ℚ) •
          ((s.radius j + s.radius i - vnorm c (SS.vecJI c s j i)) • SS.nrm c s j i) ∧
    ((SC.step c w (j, i)).cl.particles i).pos =
      (w.cl.particles i).pos +
        (15 / 100 : ℚ) •
          ((w.sph.radius j - vnorm c (SC.vecJI c w j i)) • SC.nrm c w j i) ∧
    ((SC.step c w (j, i)).sph.particles j).pos =
      (w.sph.particles j).pos -
        (15 / 100 : ℚ) •
          ((w.sph.radius j - vnorm c (SC.vecJI c w j i)) • SC.nrm c w j i) := by
  have hstepS : SS.step c s (j, i) = SS.response c s j i := by
    rw [SS.step, if_pos hhitS]
  have hstepC : SC.step c w (j, i) = SC.response c w j i := by
    rw [SC.step, if_pos hhitC]
  have hnS' : 0 ≤ c.sq (Vec4.dot (SS.vecJI c s j i) (SS.vecJI c s j i)) := hnS
  have hnC' : 0 ≤ c.sq (Vec4.dot (SC.vecJI c w j i) (SC.vecJI c w j i)) := hnC
  refine ⟨?_, ?_, ?_, ?_⟩
  · rw [hstepS]
    simp [SS.response, SS.posI2, SS.corr, SS.pen, abs_of_nonneg hnS, vnorm, hnS']
  · rw [hstepS]
    simp [SS.response, Function.update_apply, hji, Ne.symm hji,
      SS.posJ2, SS.corr, SS.pen, abs_of_nonneg hnS, vnorm, hnS']
  · rw [hstepC]
    simp [SC.response, SC.posI2, SC.corr, SC.pen, abs_of_nonneg hnC, vnorm, hnC']
  · rw [hstepC]
    simp [SC.response, SC.posJ2, SC.corr, SC.pen, abs_of_nonneg hnC, vnorm, hnC']

theorem pen_step_le_SS (c : Config) (s : SpheresState) (j i : ℕ) (hji : j ≠ i)
    (hpos : 0 < Vec4.dot (SS.vecJI c s j i) (SS.vecJI c s j i))
    (hsq : c.sq (Vec4.dot (SS.vecJI c s j i) (SS.vecJI c s j i)) *
        c.sq (Vec4.dot (SS.vecJI c s j i) (SS.vecJI c s j i)) =
        Vec4.dot (SS.vecJI c s j i) (SS.vecJI c s j i))
    (hs0 : 0 ≤ c.sq (Vec4.dot (SS.vecJI c s j i) (SS.vecJI c s j i)))
    (hcond : vnorm c (SS.vecJI c s j i) ≤ s.radius j + s.radius i)
    (hsq' : c.sq (Vec4.dot (SS.vecJI c (SS.step c s (j, i)) j i)
          (SS.vecJI c (SS.step c s (j, i)) j i)) *
        c.sq (Vec4.dot (SS.vecJI c (SS.step c s (j, i)) j i)
          (SS.vecJI c (SS.step c s (j, i)) j i)) =
        Vec4.dot (SS.vecJI c (SS.step c s (j, i)) j i)
          (SS.vecJI c (SS.step c s (j, i)) j i))
    (hs0' : 0 ≤ c.sq (Vec4.dot (SS.vecJI c (SS.step c s (j, i)) j i)
        (SS.vecJI c (SS.step c s (j, i)) j i))) :
    SS.pen c (SS.step c s (j, i)) j i ≤ SS.pen c s j i := by
  have hstep : SS.step c s (j, i) = SS.response c s j i := by
    rw [SS.step, if_pos hcond]
  rw [hstep] at hsq' hs0' ⊢
  have hsne : c.sq (Vec4.dot (SS.vecJI c s j i) (SS.vecJI c s j i)) ≠ 0 := by
    intro h0
    rw [h0, zero_mul] at hsq
    exact absurd hsq.symm (ne_of_gt hpos)
  have hnrm : SS.nrm c s j i =
      SS.vecJI c s j i / c.sq (Vec4.dot (SS.vecJI c s j i) (SS.vecJI c s j i)) := by
    rw [SS.nrm, normalized, if_pos hpos]
  have hpen : SS.pen c s j i =
      s.radius j + s.radius i - c.sq (Vec4.dot (SS.vecJI c s j i) (SS.vecJI c s j i)) := by
    rw [SS.pen, vnorm, abs_of_nonneg hs0]
  have hp0 : 0 ≤ SS.pen c s j i := by
    rw [hpen]
    have : vnorm c (SS.vecJI c s j i) =
        c.sq (Vec4.dot (SS.vecJI c s j i) (SS.vecJI c s j i)) := rfl
    rw [this] at hcond
    linarith
  have hvec' : SS.vecJI c (SS.response c s j i) j i =
      SS.vecJI c s j i + SS.corr c s j i + SS.corr c s j i := by
    have hv : SS.vecJI c (SS.response c s j i) j i =
        SS.posI2 c s j i - SS.posJ2 c s j i := by
      simp [SS.vecJI, SS.response, Function.update_apply, hji, Ne.symm hji]
    rw [hv, SS.posI2, SS.posJ2]
    ext <;> simp [SS.vecJI] <;> ring
  have hvec2 : SS.vecJI c (SS.response c s j i) j i =
      ((c.sq (Vec4.dot (SS.vecJI c s j i) (SS.vecJI c s j i)) +
          (3 / 10) * SS.pen c s j i) /
        c.sq (Vec4.dot (SS.vecJI c s j i) (SS.vecJI c s j i))) • SS.vecJI c s j i := by
    rw [hvec']
    simp only [SS.corr, hnrm, Vec4.divS_def, Vec4.smul_def, Vec4.add_def]
    ext <;> field_simp <;> ring
  have hd2' : Vec4.dot (SS.vecJI c (SS.response c s j i) j i)
      (SS.vecJI c (SS.response c s j i) j i) =
      (c.sq (Vec4.dot (SS.vecJI c s j i) (SS.vecJI c s j i)) +
        (3 / 10) * SS.pen c s j i) ^ 2 := by
    rw [hvec2, Vec4.dot_smul_left, Vec4.dot_smul_right]
    field_simp
    linear_combination (-10000 * (c.sq (Vec4.dot (SS.vecJI c s j i) (SS.vecJI c s j i)) +
      (3 / 10) * SS.pen c s j i) ^ 2) * hsq
  rw [hd2'] at hsq' hs0'
  have hsp0 : 0 ≤ c.sq (Vec4.dot (SS.vecJI c s j i) (SS.vecJI c s j i)) +
      (3 / 10) * SS.pen c s j i := by linarith
  have htp : c.sq ((c.sq (Vec4.dot (SS.vecJI c s j i) (SS.vecJI c s j i)) +
        (3 / 10) * SS.pen c s j i) ^ 2) =
      c.sq (Vec4.dot (SS.vecJI c s j i) (SS.vecJI c s j i)) +
        (3 / 10) * SS.pen c s j i := by
    have h2 : c.sq ((c.sq (Vec4.dot (SS.vecJI c s j i) (SS.vecJI c s j i)) +
          (3 / 10) * SS.pen c s j i) ^ 2) *
        c.sq ((c.sq (Vec4.dot (SS.vecJI c s j i) (SS.vecJI c s j i)) +
          (3 / 10) * SS.pen c s j i) ^ 2) =
        (c.sq (Vec4.dot (SS.vecJI c s j i) (SS.vecJI c s j i)) +
          (3 / 10) * SS.pen c s j i) *
        (c.sq (Vec4.dot (SS.vecJI c s j i) (SS.vecJI c s j i)) +
          (3 / 10) * SS.pen c s j i) := by
      rw [hsq']
      ring
    rcases mul_self_eq_mul_self_iff.mp h2 with h | h
    · exact h
    · linarith
  have hfinal : SS.pen c (SS.response c s j i) j i =
      s.radius j + s.radius i -
        (c.sq (Vec4.dot (SS.vecJI c s j i) (SS.vecJI c s j i)) +
          (3 / 10) * SS.pen c s j i) := by
    rw [SS.pen, vnorm, hd2', htp, abs_of_nonneg hsp0]
    rfl
  rw [hfinal, hpen]
  linarith

theorem pen_step_le_SC (c : Config) (w : World) (j i : ℕ)
    (hpos : 0 < Vec4.dot (SC.vecJI c w j i) (SC.vecJI c w j i))
    (hsq : c.sq (Vec4.dot (SC.vecJI c w j i) (SC.vecJI c w j i)) *
        c.sq (Vec4.dot (SC.vecJI c w j i) (SC.vecJI c w j i)) =
        Vec4.dot (SC.vecJI c w j i) (SC.vecJI c w j i))
    (hs0 : 0 ≤ c.sq (Vec4.dot (SC.vecJI c w j i) (SC.vecJI c w j i)))
    (hcond : vnorm c (SC.vecJI c w j i) ≤ w.sph.radius j)
    (hsq' : c.sq (Vec4.dot (SC.vecJI c (SC.step c w (j, i)) j i)
          (SC.vecJI c (SC.step c w (j, i)) j i)) *
        c.sq (Vec4.dot (SC.vecJI c (SC.step c w (j, i)) j i)
          (SC.vecJI c (SC.step c w (j, i)) j i)) =
        Vec4.dot (SC.vecJI c (SC.step c w (j, i)) j i)
          (SC.vecJI c (SC.step c w (j, i)) j i))
    (hs0' : 0 ≤ c.sq (Vec4.dot (SC.vecJI c (SC.step c w (j, i)) j i)
        (SC.vecJI c (SC.step c w (j, i)) j i))) :
    SC.pen c (SC.step c w (j, i)) j i ≤ SC.pen c w j i := by
  have hstep : SC.step c w (j, i) = SC.response c w j i := by
    rw [SC.step, if_pos hcond]
  rw [hstep] at hsq' hs0' ⊢
  have hsne : c.sq (Vec4.dot (SC.vecJI c w j i) (SC.vecJI c w j i)) ≠ 0 := by
    intro h0
    rw [h0, zero_mul] at hsq
    exact absurd hsq.symm (ne_of_gt hpos)
  have hnrm : SC.nrm c w j i =
      SC.vecJI c w j i / c.sq (Vec4.dot (SC.vecJI c w j i) (SC.vecJI c w j i)) := by
    rw [SC.nrm, normalized, if_pos hpos]
  have hpen : SC.pen c w j i =
      w.sph.radius j - c.sq (Vec4.dot (SC.vecJI c w j i) (SC.vecJI c w j i)) := by
    rw [SC.pen, vnorm, abs_of_nonneg hs0]
  have hp0 : 0 ≤ SC.pen c w j i := by
    rw [hpen]
    have : vnorm c (SC.vecJI c w j i) =
        c.sq (Vec4.dot (SC.vecJI c w j i) (SC.vecJI c w j i)) := rfl
    rw [this] at hcond
    linarith
  have hvec' : SC.vecJI c (SC.response c w j i) j i =
      SC.vecJI c w j i + SC.corr c w j i + SC.corr c w j i := by
    have hv : SC.vecJI c (SC.response c w j i) j i =
        SC.posI2 c w j i - SC.posJ2 c w j i := by
      simp [SC.vecJI, SC.response, Function.update_same]
    rw [hv, SC.posI2, SC.posJ2]
    ext <;> simp [SC.vecJI] <;> ring
  have hvec2 : SC.vecJI c (SC.response c w j i) j i =
      ((c.sq (Vec4.dot (SC.vecJI c w j i) (SC.vecJI c w j i)) +
          (3 / 10) * SC.pen c w j i) /
        c.sq (Vec4.dot (SC.vecJI c w j i) (SC.vecJI c w j i))) • SC.vecJI c w j i := by
    rw [hvec']
    simp only [SC.corr, hnrm, Vec4.divS_def, Vec4.smul_def, Vec4.add_def]
    ext <;> field_simp <;> ring
  have hd2' : Vec4.dot (SC.vecJI c (SC.response c w j i) j i)
      (SC.vecJI c (SC.response c w j i) j i) =
      (c.sq (Vec4.dot (SC.vecJI c w j i) (SC.vecJI c w j i)) +
        (3 / 10) * SC.pen c w j i) ^ 2 := by
    rw [hvec2, Vec4.dot_smul_left, Vec4.dot_smul_right]
    field_simp
    linear_combination (-10000 * (c.sq (Vec4.dot (SC.vecJI c w j i) (SC.vecJI c w j i)) +
      (3 / 10) * SC.pen c w j i) ^ 2) * hsq
  rw [hd2'] at hsq' hs0'
  have hsp0 : 0 ≤ c.sq (Vec4.dot (SC.vecJI c w j i) (SC.vecJI c w j i)) +
      (3 / 10) * SC.pen c w j i := by linarith
  have htp : c.sq ((c.sq (Vec4.dot (SC.vecJI c w j i) (SC.vecJI c w j i)) +
        (3 / 10) * SC.pen c w j i) ^ 2) =
      c.sq (Vec4.dot (SC.vecJI c w j i) (SC.vecJI c w j i)) +
        (3 / 10) * SC.pen c w j i := by
    have h2 : c.sq ((c.sq (Vec4.dot (SC.vecJI c w j i) (SC.vecJI c w j i)) +
          (3 / 10) * SC.pen c w j i) ^ 2) *
        c.sq ((c.sq (Vec4.dot (SC.vecJI c w j i) (SC.vecJI c w j i)) +
          (3 / 10) * SC.pen c w j i) ^ 2) =
        (c.sq (Vec4.dot (SC.vecJI c w j i) (SC.vecJI c w j i)) +
          (3 / 10) * SC.pen c w j i) *
        (c.sq (Vec4.dot (SC.vecJI c w j i) (SC.vecJI c w j i)) +
          (3 / 10) * SC.pen c w j i) := by
      rw [hsq']
      ring
    rcases mul_self_eq_mul_self_iff.mp h2 with h | h
    · exact h
    · linarith
  have hfinal : SC.pen c (SC.response c w j i) j i =
      w.sph.radius j -
        (c.sq (Vec4.dot (SC.vecJI c w j i) (SC.vecJI c w j i)) +
          (3 / 10) * SC.pen c w j i) := by
    rw [SC.pen, vnorm, hd2', htp, abs_of_nonneg hsp0]
    rfl
  rw [hfinal, hpen]
  linarith

theorem pen_step_eq_SS_of_zero (c : Config) (s : SpheresState) (j i : ℕ) (hji : j ≠ i)
    (h0 : Vec4.dot (SS.vecJI c s j i) (SS.vecJI c s j i) = 0) :
    SS.pen c (SS.step c s (j, i)) j i = SS.pen c s j i := by
  by_cases hcond : vnorm c (SS.vecJI c s j i) ≤ s.radius j + s.radius i
  · rw [SS.step, if_pos hcond]
    have hz : SS.vecJI c s j i = 0 := (Vec4.dot_self_eq_zero_iff _).mp h0
    have hn : SS.nrm c s j i = 0 := by rw [SS.nrm, hz, normalized_zero]
    have hc : SS.corr c s j i = 0 := by
      rw [SS.corr, hn]
      ext <;> simp
    have hvr : SS.vecJI c (SS.response c s j i) j i = SS.vecJI c s j i := by
      have hv : SS.vecJI c (SS.response c s j i) j i =
          SS.posI2 c s j i - SS.posJ2 c s j i := by
        simp [SS.vecJI, SS.response, Function.update_apply, hji, Ne.symm hji]
      rw [hv, SS.posI2, SS.posJ2, hc]
      ext <;> simp [SS.vecJI]
    simp only [SS.pen, hvr]
    rfl
  · rw [SS.step, if_neg hcond]

theorem pen_step_eq_SC_of_zero (c : Config) (w : World) (j i : ℕ)
    (h0 : Vec4.dot (SC.vecJI c w j i) (SC.vecJI c w j i) = 0) :
    SC.pen c (SC.step c w (j, i)) j i = SC.pen c w j i := by
  by_cases hcond : vnorm c (SC.vecJI c w j i) ≤ w.sph.radius j
  · rw [SC.step, if_pos hcond]
    have hz : SC.vecJI c w j i = 0 := (Vec4.dot_self_eq_zero_iff _).mp h0
    have hn : SC.nrm c w j i = 0 := by rw [SC.nrm, hz, normalized_zero]
    have hc : SC.corr c w j i = 0 := by
      rw [SC.corr, hn]
      ext <;> simp
    have hvr : SC.vecJI c (SC.response c w j i) j i = SC.vecJI c w j i := by
      have hv : SC.vecJI c (SC.response c w j i) j i =
          SC.posI2 c w j i - SC.posJ2 c w j i := by
        simp [SC.vecJI, SC.response, Function.update_same]
      rw [hv, SC.posI2, SC.posJ2, hc]
      ext <;> simp [SC.vecJI]
    simp only [SC.pen, hvr]
    rfl
  · rw [SC.step, if_neg hcond]

/-- Claim C5: for every pair processed by the collision resolver, the
interpenetration after the positional correction is not greater than
immediately before it: in the sphere-sphere and sphere-cloth cases,
whenever the pair is in collision range and the square-root oracle is
exact and nonnegative at the squared distances before and after the
correction, the penetration does not increase; when the two centers
coincide the correction vanishes and the penetration is unchanged. -/
theorem C5_no_interpenetration_increase (c : Config) (s : SpheresState) (w : World)
    (j i : ℕ) (hji : j ≠ i) :
    (0 < Vec4.dot (SS.vecJI c s j i) (SS.vecJI c s j i) →
      c.sq (Vec4.dot (SS.vecJI c s j i) (SS.vecJI c s j i)) *
          c.sq (Vec4.dot (SS.vecJI c s j i) (SS.vecJI c s j i)) =
          Vec4.dot (SS.vecJI c s j i) (SS.vecJI c s j i) →
      0 ≤ c.sq (Vec4.dot (SS.vecJI c s j i) (SS.vecJI c s j i)) →
      vnorm c (SS.vecJI c s j i) ≤ s.radius j + s.radius i →
      c.sq (Vec4.dot (SS.vecJI c (SS.step c s (j, i)) j i)
            (SS.vecJI c (SS.step c s (j, i)) j i)) *
          c.sq (Vec4.dot (SS.vecJI c (SS.step c s (j, i)) j i)
            (SS.vecJI c (SS.step c s (j, i)) j i)) =
          Vec4.dot (SS.vecJI c (SS.step c s (j, i)) j i)
            (SS.vecJI c (SS.step c s (j, i)) j i) →
      0 ≤ c.sq (Vec4.dot (SS.vecJI c (SS.step c s (j, i)) j i)
          (SS.vecJI c (SS.step c s (j, i)) j i)) →
      SS.pen c (SS.step c s (j, i)) j i ≤ SS.pen c s j i) ∧
    (Vec4.dot (SS.vecJI c s j i) (SS.vecJI c s j i) = 0 →
      SS.pen c (SS.step c s (j, i)) j i = SS.pen c s j i) ∧
    (0 < Vec4.dot (SC.vecJI c w j i) (SC.vecJI c w j i) →
      c.sq (Vec4.dot (SC.vecJI c w j i) (SC.vecJI c w j i)) *
          c.sq (Vec4.dot (SC.vecJI c w j i) (SC.vecJI c w j i)) =
          Vec4.dot (SC.vecJI c w j i) (SC.vecJI c w j i) →
      0 ≤ c.sq (Vec4.dot (SC.vecJI c w j i) (SC.vecJI c w j i)) →
      vnorm c (SC.vecJI c w j i) ≤ w.sph.radius j →
      c.sq (Vec4.dot (SC.vecJI c (SC.step c w (j, i)) j i)
            (SC.vecJI c (SC.step c w (j, i)) j i)) *
          c.sq (Vec4.dot (SC.vecJI c (SC.step c w (j, i)) j i)
            (SC.vecJI c (SC.step c w (j, i)) j i)) =
          Vec4.dot (SC.vecJI c (SC.step c w (j, i)) j i)
            (SC.vecJI c (SC.step c w (j, i)) j i) →
      0 ≤ c.sq (Vec4.dot (SC.vecJI c (SC.step c w (j, i)) j i)
          (SC.vecJI c (SC.step c w (j, i)) j i)) →
      SC.pen c (SC.step c w (j, i)) j i ≤ SC.pen c w j i) ∧
    (Vec4.dot (SC.vecJI c w j i) (SC.vecJI c w j i) = 0 →
      SC.pen c (SC.step c w (j, i)) j i = SC.pen c w j i) := by
  refine ⟨?_, ?_, ?_, ?_⟩
  · intro hpos hsq hs0 hcond hsq' hs0'
    exact pen_step_le_SS c s j i hji hpos hsq hs0 hcond hsq' hs0'
  · intro h0
    exact pen_step_eq_SS_of_zero c s j i hji h0
  · intro hpos hsq hs0 hcond hsq' hs0'
    exact pen_step_le_SC c w j i hpos hsq hs0 hcond hsq' hs0'
  · intro h0
    exact pen_step_eq_SC_of_zero c w j i h0

theorem fixedFields_SS_step (c : Config) (s : SpheresState) (p : ℕ × ℕ) (k : ℕ) :
    fixedFields ((SS.step c s p).particles k) = fixedFields (s.particles k) := by
  rw [SS.step]
  split
  · simp only [SS.response, Function.update_apply]
    split_ifs with h1 h2
    · subst h1; rfl
    · subst h2; rfl
    · rfl
  · rfl

theorem fixedFields_SS_collide (c : Config) (s : SpheresState) (k : ℕ) :
    fixedFields ((SS.collide c s).particles k) = fixedFields (s.particles k) := by
  rw [SS.collide]
  generalize SS.pairList s.sphereCount = l
  induction l generalizing s with
  | nil => rfl
  | cons p t ih =>
    rw [List.foldl_cons, ih (SS.step c s p)]
    exact fixedFields_SS_step c s p k

theorem fixedFields_SC_step_sph (c : Config) (w : World) (p : ℕ × ℕ) (k : ℕ) :
    fixedFields ((SC.step c w p).sph.particles k) = fixedFields (w.sph.particles k) := by
  rw [SC.step]
  split
  · simp only [SC.response, Function.update_apply]
    split_ifs with h1
    · subst h1; rfl
    · rfl
  · rfl

theorem fixedFields_SC_step_cl (c : Config) (w : World) (p : ℕ × ℕ) (k : ℕ) :
    fixedFields ((SC.step c w p).cl.particles k) = fixedFields (w.cl.particles k) := by
  rw [SC.step]
  split
  · simp only [SC.response, Function.update_apply]
    split_ifs with h1
    · subst h1; rfl
    · rfl
  · rfl

theorem fixedFields_SC_collide_sph (c : Config) (w : World) (k : ℕ) :
    fixedFields ((SC.collideCloth c w).sph.particles k) = fixedFields (w.sph.particles k) := by
  rw [SC.collideCloth]
  generalize SC.pairList w.sph.sphereCount w.cl.numParticles = l
  induction l generalizing w with
  | nil => rfl
  | cons p t ih =>
    rw [List.foldl_cons, ih (SC.step c w p)]
    exact fixedFields_SC_step_sph c w p k

theorem fixedFields_SC_collide_cl (c : Config) (w : World) (k : ℕ) :
    fixedFields ((SC.collideCloth c w).cl.particles k) = fixedFields (w.cl.particles k) := by
  rw [SC.collideCloth]
  generalize SC.pairList w.sph.sphereCount w.cl.numParticles = l
  induction l generalizing w with
  | nil => rfl
  | cons p t ih =>
    rw [List.foldl_cons, ih (SC.step c w p)]
    exact fixedFields_SC_step_cl c w p k

/-- Claim C6: the collision-resolution operations mutate only velocity,
position and rotation.  For both `collide()` and `collide(Cloth*)`, the
acceleration, mass and inverse mass of every particle are unchanged by
the whole call, and one pair iteration leaves every particle other than
the two involved completely unchanged. -/
theorem C6_frame_effect (c : Config) (s : SpheresState) (w : World) :
    (∀ k, fixedFields ((SS.collide c s).particles k) = fixedFields (s.particles k)) ∧
    (∀ k, fixedFields ((SC.collideCloth c w).sph.particles k) =
      fixedFields (w.sph.particles k)) ∧
    (∀ k, fixedFields ((SC.collideCloth c w).cl.particles k) =
      fixedFields (w.cl.particles k)) ∧
    (∀ j i k, k ≠ j → k ≠ i → (SS.step c s (j, i)).particles k = s.particles k) ∧
    (∀ j i k, k ≠ j → (SC.step c w (j, i)).sph.particles k = w.sph.particles k) ∧
    (∀ j i k, k ≠ i → (SC.step c w (j, i)).cl.particles k = w.cl.particles k) := by
  refine ⟨fun k => fixedFields_SS_collide c s k,
    fun k => fixedFields_SC_collide_sph c w k,
    fun k => fixedFields_SC_collide_cl c w k, ?_, ?_, ?_⟩
  · intro j i k hkj hki
    rw [SS.step]
    split
    · simp [SS.response, Function.update_apply, hki, hkj]
    · rfl
  · intro j i k hkj
    rw [SC.step]
    split
    · simp [SC.response, Function.update_apply, hkj]
    · rfl
  · intro j i k hki
    rw [SC.step]
    split
    · simp [SC.response, Function.update_apply, hki]
    · rfl

theorem addSphere_count (c : Config) (s : SpheresState) (position : Vec4) (size : ℚ) :
    (addSphere c s position size).sphereCount = s.sphereCount + 1 := by
  by_cases hc : s.sphereCount = s.capacity <;> simp [addSphere, hc]

theorem addSphere_particles (c : Config) (s : SpheresState) (position : Vec4) (size : ℚ) :
    (addSphere c s position size).particles =
      Function.update s.particles s.sphereCount
        { s.particles s.sphereCount with
          pos := position
          vel := 0
          acc := 0
          mass := c.sphereDensity * size * size * size } := by
  by_cases hc : s.sphereCount = s.capacity <;> simp [addSphere, hc]

theorem addSphere_radius (c : Config) (s : SpheresState) (position : Vec4) (size : ℚ) :
    (addSphere c s position size).radius = Function.update s.radius s.sphereCount size := by
  by_cases hc : s.sphereCount = s.capacity <;> simp [addSphere, hc]

theorem addSphere_mass_inv (c : Config) (s : SpheresState) (position : Vec4) (size : ℚ)
    (h : ∀ k, k < s.sphereCount →
      (s.particles k).mass = c.sphereDensity * s.radius k * s.radius k * s.radius k) :
    ∀ k, k < (addSphere c s position size).sphereCount →
      ((addSphere c s position size).particles k).mass =
        c.sphereDensity * (addSphere c s position size).radius k *
          (addSphere c s position size).radius k * (addSphere c s position size).radius k := by
  intro k hk
  rw [addSphere_count] at hk
  rw [addSphere_particles, addSphere_radius]
  by_cases hks : k = s.sphereCount
  · subst hks
    simp [Function.update_same]
  · rw [Function.update_noteq hks, Function.update_noteq hks]
    exact h k (by omega)

/-- Claim C7: after any sequence of `addSphere` calls starting from an
empty sphere set, every stored sphere's mass equals the density constant
times the cube of its stored radius. -/
theorem C7_mass_density_invariant (c : Config) (s0 : SpheresState)
    (h0 : s0.sphereCount = 0) (calls : List (Vec4 × ℚ))
    (hpos : ∀ p ∈ calls, 0 < p.2) :
    ∀ k, k < (applyCalls c s0 calls).sphereCount →
      ((applyCalls c s0 calls).particles k).mass =
        c.sphereDensity * (applyCalls c s0 calls).radius k *
          (applyCalls c s0 calls).radius k * (applyCalls c s0 calls).radius k := by
  have main : ∀ (l : List (Vec4 × ℚ)) (s : SpheresState),
      (∀ k, k < s.sphereCount →
        (s.particles k).mass = c.sphereDensity * s.radius k * s.radius k * s.radius k) →
      ∀ k, k < (applyCalls c s l).sphereCount →
        ((applyCalls c s l).particles k).mass =
          c.sphereDensity * (applyCalls c s l).radius k *
            (applyCalls c s l).radius k * (applyCalls c s l).radius k := by
    intro l
    induction l with
    | nil => intro s h; exact h
    | cons p t ih =>
      intro s h
      have hfold : applyCalls c s (p :: t) = applyCalls c (addSphere c s p.1 p.2) t := by
        rw [applyCalls, applyCalls, List.foldl_cons]
      rw [hfold]
      exact ih (addSphere c s p.1 p.2) (addSphere_mass_inv c s p.1 p.2 h)
  exact main calls s0 (by intro k hk; rw [h0] at hk; omega)

/-- Claim C8: `addSphere` grows the storage by doubling-capacity
reallocation: exactly when the sphere count has reached the stored
capacity, the particle-buffer capacity and the radius-buffer length
become twice the current count; the new sphere's radius and mass are
written at the old count and the count then increases by exactly one. -/
theorem C8_doubling_growth (c : Config) (s : SpheresState) (position : Vec4) (size : ℚ) :
    (addSphere c s position size).sphereCount = s.sphereCount + 1 ∧
    (addSphere c s position size).capacity =
      (if s.sphereCount = s.capacity then s.sphereCount * 2 else s.capacity) ∧
    (addSphere c s position size).radiusLen =
      (if s.sphereCount = s.capacity then s.sphereCount * 2 else s.radiusLen) ∧
    (addSphere c s position size).radius s.sphereCount = size ∧
    ((addSphere c s position size).particles s.sphereCount).mass =
      c.sphereDensity * size * size * size := by
  by_cases hc : s.sphereCount = s.capacity <;>
    simp [addSphere, hc, Function.update_same]

/-- Claim C9: the collision resolver is a total numeric computation with
no error branch.  For arbitrary positions, velocities and rotations
(including coincident centers and zero relative velocity, where Eigen's
`normalized()` takes its guarded branch), under the data-model invariant
(positive masses, nonzero radii), the nonzero timestep constant and a
square-root routine positive on positive inputs, every division site of
a sphere-sphere and of a sphere-cloth pair response has a nonzero
denominator, and every square-root argument is nonnegative. -/
theorem C9_no_failure_modes (c : Config) (w : World) (j i : ℕ)
    (hdt : c.deltaTime ≠ 0)
    (hsqpos : ∀ x : ℚ, 0 < x → 0 < c.sq x)
    (hmj : 0 < (w.sph.particles j).mass)
    (hmi : 0 < (w.sph.particles i).mass)
    (hmc : 0 < (w.cl.particles i).mass)
    (hrj : w.sph.radius j ≠ 0)
    (hri : w.sph.radius i ≠ 0) :
    SSdivOk c w.sph j i ∧ SCdivOk c w j i := by
  have hsqOk : ∀ v : Vec4, sqOk c v :=
    fun v => ⟨Vec4.dot_self_nonneg v, fun h => (hsqpos _ h).ne'⟩
  refine ⟨⟨by positivity, hdt, ?_, ?_, hsqOk _, hsqOk _, hsqOk _, hsqOk _, hsqOk _, hsqOk _⟩,
    ⟨by positivity, hdt, ?_, hsqOk _, hsqOk _, hsqOk _, hsqOk _, hsqOk _⟩⟩
  · rw [SS.inertia]
    exact mul_ne_zero (mul_ne_zero (mul_ne_zero (by norm_num) (ne_of_gt hmj)) hrj) hrj
  · rw [SS.inertia]
    exact mul_ne_zero (mul_ne_zero (mul_ne_zero (by norm_num) (ne_of_gt hmi)) hri) hri
  · rw [SC.inertia1]
    exact mul_ne_zero (mul_ne_zero (mul_ne_zero (by norm_num) (ne_of_gt hmj)) hrj) hrj

/-- Claim C10 (amended): a pair whose distance strictly exceeds the
collision threshold triggers no update when its iteration runs, and if
every pair is strictly separated, the whole collide call leaves the
entire state unchanged.  (As originally stated the claim fails: a body
of a separated pair can still be altered by its collision with a third
body during the same call.) -/
theorem C10_separated_pairs (c : Config) (s : SpheresState) (w : World) (j i : ℕ) :
    (s.radius j + s.radius i < vnorm c (SS.vecJI c s j i) → SS.step c s (j, i) = s) ∧
    (w.sph.radius j < vnorm c (SC.vecJI c w j i) → SC.step c w (j, i) = w) ∧
    ((∀ p ∈ SS.pairList s.sphereCount,
        s.radius p.1 + s.radius p.2 < vnorm c (SS.vecJI c s p.1 p.2)) →
      SS.collide c s = s) ∧
    ((∀ p ∈ SC.pairList w.sph.sphereCount w.cl.numParticles,
        w.sph.radius p.1 < vnorm c (SC.vecJI c w p.1 p.2)) →
      SC.collideCloth c w = w) := by
  refine ⟨?_, ?_, ?_, ?_⟩
  · intro h
    rw [SS.step, if_neg (not_le.mpr h)]
  · intro h
    rw [SC.step, if_neg (not_le.mpr h)]
  · intro h
    rw [SS.collide]
    exact foldl_id_of_step_id _ _ _
      (fun p hp => by rw [SS.step, if_neg (not_le.mpr (h p hp))])
  · intro h
    rw [SC.collideCloth]
    exact foldl_id_of_step_id _ _ _
      (fun p hp => by rw [SC.step, if_neg (not_le.mpr (h p hp))])

/-- Claim C1 (amended): when the two spheres carry zero rotation (so the
rotational-friction kick of lines 213-214 vanishes) and each stored
inverse mass is the reciprocal of the stored mass, the pair response of
`Spheres::collide()` conserves the total linear momentum of the pair
exactly: the normal impulse is equal-opposite and the tangential
friction terms cancel.  (Without the zero-rotation proviso the response
adds `deltaTime * rotate_direction * inverseMass` to each velocity, two
unit vectors that need not cancel, so momentum is not conserved.) -/
theorem C1_momentum_pair_response (c : Config) (s : SpheresState) (j i : ℕ)
    (hji : j ≠ i)
    (hm1 : (s.particles j).mass * (s.particles j).invMass = 1)
    (hm2 : (s.particles i).mass * (s.particles i).invMass = 1)
    (hsum : (s.particles j).mass + (s.particles i).mass ≠ 0)
    (hrotj : (s.particles j).rot = 0)
    (hroti : (s.particles i).rot = 0) :
    (s.particles j).mass • ((SS.response c s j i).particles j).vel +
      (s.particles i).mass • ((SS.response c s j i).particles i).vel =
    (s.particles j).mass • (s.particles j).vel +
      (s.particles i).mass • (s.particles i).vel := by
  have hpj : ((SS.response c s j i).particles j).vel = SS.velJ3 c s j i := by
    simp [SS.response, Function.update_apply, hji, Ne.symm hji]
  have hpi : ((SS.response c s j i).particles i).vel = SS.velI3 c s j i := by
    simp [SS.response, Function.update_apply]
  have hrd1 : SS.rd1 c s j i = 0 := by
    rw [SS.rd1, hrotj, Vec4.cross3_zero_left, normalized_zero]
  have hrd2 : SS.rd2 c s j i = 0 := by
    rw [SS.rd2, hroti, Vec4.cross3_zero_left, normalized_zero]
  have hm1ne : (s.particles j).mass ≠ 0 := left_ne_zero_of_mul_eq_one hm1
  have hm2ne : (s.particles i).mass ≠ 0 := left_ne_zero_of_mul_eq_one hm2
  have hinv1 : (s.particles j).invMass = 1 / (s.particles j).mass := by
    field_simp
    linear_combination hm1
  have hinv2 : (s.particles i).invMass = 1 / (s.particles i).mass := by
    field_simp
    linear_combination hm2
  rw [hpj, hpi]
  simp only [SS.velJ3, SS.velI3, hrd1, hrd2, SS.velJ2, SS.velI2, SS.velJ1, SS.velI1,
    SS.mf1, SS.mf2, SS.v1after, SS.v2after, SS.v1, SS.v2, hinv1, hinv2]
  ext <;>
    simp only [Vec4.add_def, Vec4.sub_def, Vec4.neg_def, Vec4.smul_def,
      Vec4.divS_def, Vec4.zero_def] <;>
    field_simp <;>
    ring

/-- Square-root lookup oracle for the momentum counterexample, exact at
every squared norm the trace evaluates. -/
def sqA : ℚ → ℚ := fun x =>
  if x = 9 / 4 then 3 / 2
  else if x = 81 / 100 then 9 / 10
  else if x = 1 then 1
  else 0

def cfgA : Config := ⟨1, 0, 1, sqA⟩

/-- Two unit-mass, unit-radius spheres approaching head-on along x, both
spinning about z. -/
def pA : ℕ → Particle := fun k =>
  if k = 0 then
    ⟨⟨0, 0, 0, 0⟩, ⟨1, 0, 0, 0⟩, ⟨0, 0, 0, 0⟩, 1, 1, ⟨0, 0, 1, 0⟩⟩
  else
    ⟨⟨3 / 2, 0, 0, 0⟩, ⟨0, 0, 0, 0⟩, ⟨0, 0, 0, 0⟩, 1, 1, ⟨0, 0, 1, 0⟩⟩

def sA : SpheresState := ⟨pA, fun _ => 1, 2, 2, 2⟩

/-- Claim C1 is false as stated: on two colliding unit spheres with
equal nonzero rotations, `Spheres::collide()` changes the total linear
momentum of the pair (the rotational-friction kick of lines 213-214
adds `deltaTime * (0,1,0,0)` to each velocity), an exact change of
`(0, 2*deltaTime, 0, 0)`, not a floating-point rounding effect. -/
theorem C1_counterexample :
    SS.totalMomentum (SS.collide cfgA sA) 2 ≠ SS.totalMomentum sA 2 := by
  have hzx : (0 : Vec4).x = 0 := rfl
  have hzy : (0 : Vec4).y = 0 := rfl
  norm_num [hzx, hzy, SS.totalMomentum, SS.collide, SS.pairList, List.range_succ, List.range',
    SS.step, SS.response, SS.velJ3, SS.velI3, SS.velJ2, SS.velI2, SS.velJ1, SS.velI1,
    SS.mf1, SS.mf2, SS.nfv, SS.u1, SS.u2, SS.rd1, SS.rd2, SS.v1after, SS.v2after,
    SS.v1, SS.v2, SS.nrm, SS.vecJI, SS.corr, SS.pen, SS.posI2, SS.posJ2,
    SS.rotJ2, SS.rotI2, SS.inertia, normalized, vnorm, sqA, cfgA, sA, pA,
    Function.update_apply, Vec4.dot, Vec4.cross3, Vec4.ext_iff]

/-- Square-root lookup oracle for the separated-pair counterexample,
exact at every squared norm the trace evaluates. -/
def sqB : ℚ → ℚ := fun x =>
  if x = 9 / 4 then 3 / 2
  else if x = 81 / 100 then 9 / 10
  else if x = 1 then 1
  else if x = 162409 / 1600 then 403 / 40
  else if x = 113569 / 1600 then 337 / 40
  else if x = 100 then 10
  else 0

def cfgB : Config := ⟨1, 0, 1, sqB⟩

/-- Three unit spheres: 0 and 1 collide head-on, 2 is far away. -/
def pB : ℕ → Particle := fun k =>
  if k = 0 then
    ⟨⟨0, 0, 0, 0⟩, ⟨1, 0, 0, 0⟩, ⟨0, 0, 0, 0⟩, 1, 1, ⟨0, 0, 0, 0⟩⟩
  else if k = 1 then
    ⟨⟨3 / 2, 0, 0, 0⟩, ⟨0, 0, 0, 0⟩, ⟨0, 0, 0, 0⟩, 1, 1, ⟨0, 0, 0, 0⟩⟩
  else
    ⟨⟨10, 0, 0, 0⟩, ⟨0, 0, 0, 0⟩, ⟨0, 0, 0, 0⟩, 1, 1, ⟨0, 0, 0, 0⟩⟩

def sB : SpheresState := ⟨pB, fun _ => 1, 3, 3, 3⟩

/-- Claim C10 is false as stated: spheres 0 and 2 are strictly separated
(distance 10, radius sum 2), yet `Spheres::collide()` changes sphere 0's
velocity, because sphere 0 collides with sphere 1 during the same
call. -/
theorem C10_counterexample :
    sB.radius 0 + sB.radius 2 < vnorm cfgB (SS.vecJI cfgB sB 0 2) ∧
    ((SS.collide cfgB sB).particles 0).vel ≠ (sB.particles 0).vel := by
  have hzx : (0 : Vec4).x = 0 := rfl
  have habs : |(3 / 2 : ℚ)| = 3 / 2 := abs_of_nonneg (by norm_num)
  have hc : SS.collide cfgB sB =
      SS.step cfgB (SS.step cfgB (SS.step cfgB sB (0, 1)) (0, 2)) (1, 2) := by
    rw [SS.collide]
    norm_num [SS.pairList, List.range_succ, List.range', List.foldl_cons,
      List.foldl_nil, sB]
  have h2 : SS.step cfgB (SS.step cfgB sB (0, 1)) (0, 2) = SS.step cfgB sB (0, 1) := by
    rw [SS.step]
    rw [if_neg]
    norm_num [hzx, habs, SS.step, SS.response, SS.vecJI, SS.posI2, SS.posJ2, SS.corr,
      SS.pen, SS.nrm, normalized, vnorm, sqB, cfgB, sB, pB, Function.update_apply,
      Vec4.dot]
  have h3 : SS.step cfgB (SS.step cfgB sB (0, 1)) (1, 2) = SS.step cfgB sB (0, 1) := by
    rw [SS.step]
    rw [if_neg]
    norm_num [hzx, habs, SS.step, SS.response, SS.vecJI, SS.posI2, SS.posJ2, SS.corr,
      SS.pen, SS.nrm, normalized, vnorm, sqB, cfgB, sB, pB, Function.update_apply,
      Vec4.dot]
  constructor
  · norm_num [vnorm, SS.vecJI, sB, pB, cfgB, sqB, Vec4.dot]
  · rw [hc, h2, h3]
    norm_num [hzx, SS.step, SS.response, SS.velJ3, SS.velI3, SS.velJ2, SS.velI2,
      SS.velJ1, SS.velI1,
      SS.mf1, SS.mf2, SS.nfv, SS.u1, SS.u2, SS.rd1, SS.rd2, SS.v1after, SS.v2after,
      SS.v1, SS.v2, SS.nrm, SS.vecJI, SS.corr, SS.pen, SS.posI2, SS.posJ2,
      SS.rotJ2, SS.rotI2, SS.inertia, normalized, vnorm, sqB, cfgB, sB, pB,
      Function.update_apply, Vec4.dot, Vec4.cross3, Vec4.ext_iff]

/-- Square-root lookup oracle for the witnesses, exact at every squared
norm they evaluate. -/
def sqW : ℚ → ℚ := fun x =>
  if x = 9 / 4 then 3 / 2
  else if x = 81 / 100 then 9 / 10
  else if x = 1 then 1
  else if x = 9 / 25 then 3 / 5
  else if x = 1 / 4 then 1 / 2
  else if x = 1089 / 400 then 33 / 20
  else if x = 324 / 625 then 18 / 25
  else if x = 100 then 10
  else if x = 25 then 5
  else 0

def cfgW : Config := ⟨1, 0, 1, sqW⟩

/-- Two unit spheres colliding head-on, no rotation. -/
def pW : ℕ → Particle := fun k =>
  if k = 0 then
    ⟨⟨0, 0, 0, 0⟩, ⟨1, 0, 0, 0⟩, ⟨0, 0, 0, 0⟩, 1, 1, ⟨0, 0, 0, 0⟩⟩
  else
    ⟨⟨3 / 2, 0, 0, 0⟩, ⟨0, 0, 0, 0⟩, ⟨0, 0, 0, 0⟩, 1, 1, ⟨0, 0, 0, 0⟩⟩

def sW : SpheresState := ⟨pW, fun _ => 1, 2, 2, 2⟩

/-- One unit sphere moving toward a cloth particle inside its radius. -/
def wW : World :=
  ⟨⟨fun _ => ⟨⟨0, 0, 0, 0⟩, ⟨1, 0, 0, 0⟩, ⟨0, 0, 0, 0⟩, 1, 1, ⟨0, 0, 0, 0⟩⟩,
      fun _ => 1, 1, 1, 1⟩,
    ⟨fun _ => ⟨⟨3 / 5, 0, 0, 0⟩, ⟨0, 0, 0, 0⟩, ⟨0, 0, 0, 0⟩, 1, 1, ⟨0, 0, 0, 0⟩⟩, 1⟩⟩

/-- Two unit spheres far apart. -/
def sSep : SpheresState :=
  ⟨fun k =>
      if k = 0 then
        ⟨⟨0, 0, 0, 0⟩, ⟨0, 0, 0, 0⟩, ⟨0, 0, 0, 0⟩, 1, 1, ⟨0, 0, 0, 0⟩⟩
      else
        ⟨⟨10, 0, 0, 0⟩, ⟨0, 0, 0, 0⟩, ⟨0, 0, 0, 0⟩, 1, 1, ⟨0, 0, 0, 0⟩⟩,
    fun _ => 1, 2, 2, 2⟩

/-- One unit sphere with a cloth particle far outside its radius. -/
def wSep : World :=
  ⟨⟨fun _ => ⟨⟨0, 0, 0, 0⟩, ⟨0, 0, 0, 0⟩, ⟨0, 0, 0, 0⟩, 1, 1, ⟨0, 0, 0, 0⟩⟩,
      fun _ => 1, 1, 1, 1⟩,
    ⟨fun _ => ⟨⟨5, 0, 0, 0⟩, ⟨0, 0, 0, 0⟩, ⟨0, 0, 0, 0⟩, 1, 1, ⟨0, 0, 0, 0⟩⟩, 1⟩⟩

theorem C1_witness :
    (sW.particles 0).mass * (sW.particles 0).invMass = 1 ∧
    (sW.particles 0).rot = 0 ∧
    (sW.particles 0).mass • ((SS.response cfgW sW 0 1).particles 0).vel +
        (sW.particles 1).mass • ((SS.response cfgW sW 0 1).particles 1).vel =
      (sW.particles 0).mass • (sW.particles 0).vel +
        (sW.particles 1).mass • (sW.particles 1).vel :=
  ⟨by norm_num [sW, pW], rfl,
    C1_momentum_pair_response cfgW sW 0 1 (by norm_num)
      (by norm_num [sW, pW]) (by norm_num [sW, pW]) (by norm_num [sW, pW])
      rfl rfl⟩

theorem C2_witness :
    (0 : ℚ) < Vec4.dot (SS.vecJI cfgW sW 0 1) (SS.vecJI cfgW sW 0 1) ∧
    vnorm cfgW (SS.vecJI cfgW sW 0 1) ≤ sW.radius 0 + sW.radius 1 ∧
    (((0, 1) ∈ SS.pairList sW.sphereCount ↔ 0 < 1 ∧ 1 < sW.sphereCount) ∧
      Vec4.dot (SS.nrm cfgW sW 0 1) (SS.velJ1 cfgW sW 0 1) =
        ((sW.particles 0).mass * Vec4.dot (SS.nrm cfgW sW 0 1) ((sW.particles 0).vel) +
          (sW.particles 1).mass * Vec4.dot (SS.nrm cfgW sW 0 1) ((sW.particles 1).vel) +
          (sW.particles 1).mass * (8 / 10) *
            (Vec4.dot (SS.nrm cfgW sW 0 1) ((sW.particles 1).vel) -
              Vec4.dot (SS.nrm cfgW sW 0 1) ((sW.particles 0).vel))) /
          ((sW.particles 0).mass + (sW.particles 1).mass)) := by
  have h := C2_pairs_and_impulse cfgW sW 0 1
    (by norm_num [SS.vecJI, sW, pW, Vec4.dot])
    (by norm_num [SS.vecJI, sW, pW, Vec4.dot, cfgW, sqW])
    (by norm_num [sW, pW])
    (by norm_num [SS.vecJI, sW, pW, Vec4.dot, cfgW, sqW, vnorm])
  refine ⟨by norm_num [SS.vecJI, sW, pW, Vec4.dot],
    by norm_num [SS.vecJI, sW, pW, Vec4.dot, cfgW, sqW, vnorm],
    h.2.1, h.2.2.2.1⟩

theorem C3_witness :
    (0 : ℚ) < Vec4.dot (SC.vecJI cfgW wW 0 0) (SC.vecJI cfgW wW 0 0) ∧
    vnorm cfgW (SC.vecJI cfgW wW 0 0) ≤ wW.sph.radius 0 ∧
    (((0, 0) ∈ SC.pairList wW.sph.sphereCount wW.cl.numParticles ↔
        0 < wW.sph.sphereCount ∧ 0 < wW.cl.numParticles) ∧
      Vec4.dot (SC.nrm cfgW wW 0 0) (SC.velJ1 cfgW wW 0 0) =
        ((wW.sph.particles 0).mass *
            Vec4.dot (SC.nrm cfgW wW 0 0) ((wW.sph.particles 0).vel) +
          (wW.cl.particles 0).mass *
            Vec4.dot (SC.nrm cfgW wW 0 0) ((wW.cl.particles 0).vel)) /
          ((wW.sph.particles 0).mass + (wW.cl.particles 0).mass) ∧
      Vec4.dot (SC.nrm cfgW wW 0 0) (SC.velI1 cfgW wW 0 0) =
        ((wW.sph.particles 0).mass *
            Vec4.dot (SC.nrm cfgW wW 0 0) ((wW.sph.particles 0).vel) +
          (wW.cl.particles 0).mass *
            Vec4.dot (SC.nrm cfgW wW 0 0) ((wW.cl.particles 0).vel)) /
          ((wW.sph.particles 0).mass + (wW.cl.particles 0).mass)) := by
  have h := C3_cloth_inelastic cfgW wW 0 0
    (by norm_num [SC.vecJI, wW, Vec4.dot])
    (by norm_num [SC.vecJI, wW, Vec4.dot, cfgW, sqW])
    (by norm_num [wW])
    (by norm_num [SC.vecJI, wW, Vec4.dot, cfgW, sqW, vnorm])
  refine ⟨by norm_num [SC.vecJI, wW, Vec4.dot],
    by norm_num [SC.vecJI, wW, Vec4.dot, cfgW, sqW, vnorm],
    h.2.1, h.2.2.1, h.2.2.2⟩

theorem C4_witness :
    vnorm cfgW (SS.vecJI cfgW sW 0 1) ≤ sW.radius 0 + sW.radius 1 ∧
    vnorm cfgW (SC.vecJI cfgW wW 0 1) ≤ wW.sph.radius 0 ∧
    ((SS.step cfgW sW (0, 1)).particles 1).pos =
      (sW.particles 1).pos +
        (15 / 100 : ℚ) •
          ((sW.radius 0 + sW.radius 1 - vnorm cfgW (SS.vecJI cfgW sW 0 1)) •
            SS.nrm cfgW sW 0 1) ∧
    ((SC.step cfgW wW (0, 1)).cl.particles 1).pos =
      (wW.cl.particles 1).pos +
        (15 / 100 : ℚ) •
          ((wW.sph.radius 0 - vnorm cfgW (SC.vecJI cfgW wW 0 1)) •
            SC.nrm cfgW wW 0 1) := by
  have h := C4_positional_correction cfgW sW wW 0 1 (by norm_num)
    (by norm_num [SS.vecJI, sW, pW, Vec4.dot, cfgW, sqW, vnorm])
    (by norm_num [SS.vecJI, sW, pW, Vec4.dot, cfgW, sqW, vnorm])
    (by norm_num [SC.vecJI, wW, Vec4.dot, cfgW, sqW, vnorm])
    (by norm_num [SC.vecJI, wW, Vec4.dot, cfgW, sqW, vnorm])
  exact ⟨by norm_num [SS.vecJI, sW, pW, Vec4.dot, cfgW, sqW, vnorm],
    by norm_num [SC.vecJI, wW, Vec4.dot, cfgW, sqW, vnorm], h.1, h.2.2.1⟩

theorem C5_witness :
    vnorm cfgW (SS.vecJI cfgW sW 0 1) ≤ sW.radius 0 + sW.radius 1 ∧
    SS.pen cfgW (SS.step cfgW sW (0, 1)) 0 1 ≤ SS.pen cfgW sW 0 1 ∧
    SC.pen cfgW (SC.step cfgW wW (0, 1)) 0 1 ≤ SC.pen cfgW wW 0 1 := by
  have habs : |(3 / 2 : ℚ)| = 3 / 2 := abs_of_nonneg (by norm_num)
  have habc : |(3 / 5 : ℚ)| = 3 / 5 := abs_of_nonneg (by norm_num)
  have h := C5_no_interpenetration_increase cfgW sW wW 0 1 (by norm_num)
  refine ⟨by norm_num [SS.vecJI, sW, pW, Vec4.dot, cfgW, sqW, vnorm], ?_, ?_⟩
  · refine h.1 (by norm_num [SS.vecJI, sW, pW, Vec4.dot])
      (by norm_num [SS.vecJI, sW, pW, Vec4.dot, cfgW, sqW])
      (by norm_num [SS.vecJI, sW, pW, Vec4.dot, cfgW, sqW])
      (by norm_num [SS.vecJI, sW, pW, Vec4.dot, cfgW, sqW, vnorm]) ?_ ?_
    · norm_num [habs, SS.step, SS.response, SS.vecJI, SS.posI2, SS.posJ2, SS.corr,
        SS.pen, SS.nrm, normalized, vnorm, sqW, cfgW, sW, pW, Function.update_apply,
        Vec4.dot]
    · norm_num [habs, SS.step, SS.response, SS.vecJI, SS.posI2, SS.posJ2, SS.corr,
        SS.pen, SS.nrm, normalized, vnorm, sqW, cfgW, sW, pW, Function.update_apply,
        Vec4.dot]
  · refine h.2.2.1 (by norm_num [SC.vecJI, wW, Vec4.dot])
      (by norm_num [SC.vecJI, wW, Vec4.dot, cfgW, sqW])
      (by norm_num [SC.vecJI, wW, Vec4.dot, cfgW, sqW])
      (by norm_num [SC.vecJI, wW, Vec4.dot, cfgW, sqW, vnorm]) ?_ ?_
    · norm_num [habc, SC.step, SC.response, SC.vecJI, SC.posI2, SC.posJ2, SC.corr,
        SC.pen, SC.nrm, normalized, vnorm, sqW, cfgW, wW, Function.update_apply,
        Vec4.dot]
    · norm_num [habc, SC.step, SC.response, SC.vecJI, SC.posI2, SC.posJ2, SC.corr,
        SC.pen, SC.nrm, normalized, vnorm, sqW, cfgW, wW, Function.update_apply,
        Vec4.dot]

theorem C6_witness :
    fixedFields ((SS.collide cfgW sW).particles 0) = fixedFields (sW.particles 0) ∧
    (SS.step cfgW sW (0, 1)).particles 2 = sW.particles 2 ∧
    (SC.step cfgW wW (0, 1)).sph.particles 3 = wW.sph.particles 3 ∧
    (SC.step cfgW wW (0, 1)).cl.particles 2 = wW.cl.particles 2 := by
  have h := C6_frame_effect cfgW sW wW
  exact ⟨h.1 0, h.2.2.2.1 0 1 2 (by norm_num) (by norm_num),
    h.2.2.2.2.1 0 1 3 (by norm_num), h.2.2.2.2.2 0 1 2 (by norm_num)⟩

def s0W : SpheresState :=
  ⟨fun _ => ⟨⟨0, 0, 0, 0⟩, ⟨0, 0, 0, 0⟩, ⟨0, 0, 0, 0⟩, 0, 0, ⟨0, 0, 0, 0⟩⟩,
    fun _ => 0, 0, 1, 1⟩

def callsW : List (Vec4 × ℚ) := [(⟨1, 0, 0, 0⟩, 2), (⟨2, 0, 0, 0⟩, 3)]

theorem C7_witness :
    s0W.sphereCount = 0 ∧ (∀ p ∈ callsW, 0 < p.2) ∧
    1 < (applyCalls cfgW s0W callsW).sphereCount ∧
    ((applyCalls cfgW s0W callsW).particles 1).mass =
      cfgW.sphereDensity * (applyCalls cfgW s0W callsW).radius 1 *
        (applyCalls cfgW s0W callsW).radius 1 * (applyCalls cfgW s0W callsW).radius 1 := by
  have hpos : ∀ p ∈ callsW, 0 < p.2 := by
    intro p hp
    simp only [callsW, List.mem_cons, List.not_mem_nil, or_false] at hp
    rcases hp with h | h <;> subst h <;> norm_num
  have hk : 1 < (applyCalls cfgW s0W callsW).sphereCount := by
    simp [applyCalls, callsW, addSphere_count, s0W]
  exact ⟨rfl, hpos, hk, C7_mass_density_invariant cfgW s0W rfl callsW hpos 1 hk⟩

def cfgP : Config := ⟨1, 0, 1, fun x => x + 1⟩

theorem C9_witness :
    cfgP.deltaTime ≠ 0 ∧ SSdivOk cfgP wW.sph 0 1 ∧ SCdivOk cfgP wW 0 1 := by
  have h := C9_no_failure_modes cfgP wW 0 1 (by norm_num [cfgP])
    (by intro x hx; simp only [cfgP]; linarith)
    (by norm_num [wW]) (by norm_num [wW]) (by norm_num [wW])
    (by norm_num [wW]) (by norm_num [wW])
  exact ⟨by norm_num [cfgP], h.1, h.2⟩

theorem C10_witness :
    sSep.radius 0 + sSep.radius 1 < vnorm cfgW (SS.vecJI cfgW sSep 0 1) ∧
    SS.step cfgW sSep (0, 1) = sSep ∧
    SS.collide cfgW sSep = sSep ∧
    SC.step cfgW wSep (0, 1) = wSep ∧
    SC.collideCloth cfgW wSep = wSep := by
  have h := C10_separated_pairs cfgW sSep wSep 0 1
  have hsep : sSep.radius 0 + sSep.radius 1 < vnorm cfgW (SS.vecJI cfgW sSep 0 1) := by
    norm_num [sSep, SS.vecJI, Vec4.dot, vnorm, cfgW, sqW]
  have hsepc : wSep.sph.radius 0 < vnorm cfgW (SC.vecJI cfgW wSep 0 1) := by
    norm_num [wSep, SC.vecJI, Vec4.dot, vnorm, cfgW, sqW]
  refine ⟨hsep, h.1 hsep, h.2.2.1 ?_, h.2.1 hsepc, h.2.2.2 ?_⟩
  · intro p hp
    obtain ⟨a, b⟩ := p
    rw [mem_pairListSS] at hp
    have hab : a = 0 ∧ b = 1 := by
      have : sSep.sphereCount = 2 := rfl
      omega
    rcases hab with ⟨ha, hb⟩
    subst ha
    subst hb
    exact hsep
  · intro p hp
    obtain ⟨a, b⟩ := p
    rw [mem_pairListSC] at hp
    have hab : a = 0 ∧ b = 0 := by
      have h1 : wSep.sph.sphereCount = 1 := rfl
      have h2 : wSep.cl.numParticles = 1 := rfl
      omega
    rcases hab with ⟨ha, hb⟩
    subst ha
    subst hb
    norm_num [wSep, SC.vecJI, Vec4.dot, vnorm, cfgW, sqW]
